import Mathlib

/-!
Verification development for the minet HTTP transport (`minet/pycurl.py`) and
CrowdTangle pagination engine (`minet/crowdtangle/utils.py`).

The Python sources are shallowly embedded below: pure functions become Lean
functions, the stateful partition strategies become explicit state passing,
and the pagination loop becomes a fuel-indexed recursive function.  External
collaborators (the `ural` URL validator, Python's `urljoin`, the caller
supplied `url_forge`) are passed in as opaque function parameters, exactly as
the Python code treats them as opaque callables.
-/

namespace Minet

/-! ## Python string primitives

Structural (kernel-evaluable) embeddings of the Python `str` operations the
sources use.  They recurse over the character list underlying a `String`. -/

/-- ASCII whitespace, as stripped by Python's default `str.strip`. -/
def isPySpace (c : Char) : Bool :=
  c = ' ' ∨ c = '\t' ∨ c = '\n' ∨ c = '\r'

/-- `s.strip()`. -/
def pyStrip (s : String) : String :=
  String.mk (((s.data.dropWhile isPySpace).reverse.dropWhile isPySpace).reverse)

/-- `s.rstrip()`. -/
def pyRstrip (s : String) : String :=
  String.mk ((s.data.reverse.dropWhile isPySpace).reverse)

/-- `s.lower()` (ASCII, which is all the sources compare). -/
def pyLower (s : String) : String :=
  String.mk (s.data.map Char.toLower)

/-- `s.startswith(p)`. -/
def pyStartswith (p s : String) : Bool :=
  p.data.isPrefixOf s.data

/-- `sep in s` for a single-character separator. -/
def pyContainsChar (c : Char) (s : String) : Bool :=
  s.data.any (· = c)

/-- `s[:n]` for a character count `n`. -/
def pyTake (s : String) (n : Nat) : String :=
  String.mk (s.data.take n)

/-- `s[n:]` for a character count `n`. -/
def pyDrop (s : String) (n : Nat) : String :=
  String.mk (s.data.drop n)

def pySplitCharAux (c : Char) : List Char → List Char → List String
  | [], acc => [String.mk acc.reverse]
  | x :: xs, acc =>
    if x = c then String.mk acc.reverse :: pySplitCharAux c xs []
    else pySplitCharAux c xs (x :: acc)

/-- `s.split(sep)` for a single-character separator. -/
def pySplitChar (c : Char) (s : String) : List String :=
  pySplitCharAux c s.data []

def pySplitOnceAux (c : Char) : List Char → List Char → Option (String × String)
  | [], _ => none
  | x :: xs, acc =>
    if x = c then some (String.mk acc.reverse, String.mk xs)
    else pySplitOnceAux c xs (x :: acc)

/-- `s.split(sep, 1)` for a single-character separator: `none` when the
separator does not occur (where Python returns a one-element list and
indexing `[1]` raises). -/
def pySplitOnce (c : Char) (s : String) : Option (String × String) :=
  pySplitOnceAux c s.data []

/-- `s.replace(a, b)` for single characters. -/
def pyReplaceChar (a b : Char) (s : String) : String :=
  String.mk (s.data.map (fun c => if c = a then b else c))

def parseNatAux : List Char → Nat → Option Nat
  | [], acc => some acc
  | c :: cs, acc =>
    if c.isDigit then parseNatAux cs (acc * 10 + (c.toNat - '0'.toNat))
    else none

/-- `int(s)` on a plain digit string (`none` where Python raises). -/
def pyToNat (s : String) : Option Nat :=
  match s.data with
  | [] => none
  | cs => parseNatAux cs 0

/-! ## JSON values

`json.loads` produces dictionaries/lists/strings/numbers; we embed decoded
JSON documents directly.  Numbers are embedded as integers since no claim
inspects fractional values. -/

inductive Json where
  | null : Json
  | bool (b : Bool) : Json
  | str (s : String) : Json
  | num (n : Int) : Json
  | arr (elems : List Json) : Json
  | obj (fields : List (String × Json)) : Json

/-- First-match lookup in an object's field list (parsed JSON objects have
unique keys, so first-match agrees with Python dict indexing). -/
def lookupField : List (String × Json) → String → Option Json
  | [], _ => none
  | (k', v) :: rest, k => if k' = k then some v else lookupField rest k

/-- `d[k]` / `k in d` on a decoded JSON value: only objects have members. -/
def Json.lookup : Json → String → Option Json
  | .obj fields, k => lookupField fields k
  | _, _ => none

/-- The string payload of a JSON value (Python code below only ever applies
`str.replace` to fields that are strings; a non-string would raise a
`TypeError` upstream, which no claim exercises). -/
def Json.strVal : Json → String
  | .str s => s
  | _ => ""

/-! ## Dates

`minet/crowdtangle/utils.py` uses `datetime.date`: Gregorian calendar dates
with day-precision arithmetic.  We embed dates as year/month/day triples with
the standard calendar rules. -/

structure Date where
  year : Nat
  month : Nat
  day : Nat
  deriving DecidableEq, Repr

def isLeapYear (y : Nat) : Bool :=
  y % 4 == 0 && (y % 100 != 0 || y % 400 == 0)

def daysInMonth (y m : Nat) : Nat :=
  if m = 2 then (if isLeapYear y then 29 else 28)
  else if m = 4 ∨ m = 6 ∨ m = 9 ∨ m = 11 then 30
  else 31

/-- `d + timedelta(days=1)`. -/
def Date.succ (d : Date) : Date :=
  if d.day < daysInMonth d.year d.month then ⟨d.year, d.month, d.day + 1⟩
  else if d.month < 12 then ⟨d.year, d.month + 1, 1⟩
  else ⟨d.year + 1, 1, 1⟩

/-- `d - timedelta(days=1)`. -/
def Date.pred (d : Date) : Date :=
  if d.day > 1 then ⟨d.year, d.month, d.day - 1⟩
  else if d.month > 1 then ⟨d.year, d.month - 1, daysInMonth d.year (d.month - 1)⟩
  else ⟨d.year - 1, 12, 31⟩

def padNat (width n : Nat) : String :=
  let s := toString n
  if s.length < width then String.mk (List.replicate (width - s.length) '0') ++ s else s

/-- `date.isoformat()`: `YYYY-MM-DD` with zero padding. -/
def Date.isoformat (d : Date) : String :=
  padNat 4 d.year ++ "-" ++ padNat 2 d.month ++ "-" ++ padNat 2 d.day

/-- Days-since-era ordinal (standard civil-from-days algorithm), used only to
bound the number of iterations of `day_range`'s backward walk. -/
def Date.toOrd (d : Date) : Nat :=
  let y := if d.month ≤ 2 then d.year - 1 else d.year
  let era := y / 400
  let yoe := y % 400
  let mp := (d.month + 9) % 12
  let doy := (153 * mp + 2) / 5 + d.day - 1
  let doe := yoe * 365 + yoe / 4 - yoe / 100 + doy
  era * 146097 + doe

/-- `date(*[int(i) for i in s.split('-')])`. -/
def parseDate (s : String) : Date :=
  match (pySplitChar '-' s).map (fun p => (pyToNat p).getD 0) with
  | [y, m, d] => ⟨y, m, d⟩
  | _ => ⟨0, 0, 0⟩

/-! ## `day_range`

```python
def day_range(end):
    day_delta = timedelta(days=1)
    start_date = date(*[int(i) for i in end.split('-')])
    current_date = date.today() + day_delta
    while start_date != current_date:
        end_date = current_date
        current_date -= day_delta
        yield current_date.isoformat(), end_date.isoformat()
```

`date.today()` is ambient state of the process; it is passed explicitly as
the `today` argument.  The loop walks `current_date` backward one day at a
time until it meets `start_date`, so it performs exactly
`current.toOrd - start.toOrd` iterations; the fuel below is that exact count.
(When `start_date` is after `today + 1` the Python generator never
terminates; the embedding returns `[]` there, outside every claim's domain.) -/

def dayRangeAux (start : Date) : Nat → Date → List (String × String)
  | 0, _ => []
  | fuel + 1, current =>
    if start = current then []
    else
      let endDate := current
      let current' := current.pred
      (current'.isoformat, endDate.isoformat) :: dayRangeAux start fuel current'

def day_range (endStr : String) (today : Date) : List (String × String) :=
  let start := parseDate endStr
  let current := today.succ
  dayRangeAux start (current.toOrd - start.toOrd) current

/-! ## `years_iter`

```python
def years_iter(start_date, end_date):
    current_year = int(end_date[:4])
    target_year = int(start_date[:4])
    current_start_date = str(current_year) + '-01-01T00:00:00'
    current_end_date = end_date
    while current_year > target_year:
        yield current_start_date, current_end_date
        current_year -= 1
        current_end_date = str(current_year) + '-12-31T23:59:59'
        current_start_date = str(current_year) + current_start_date[4:]
    yield start_date, current_end_date
```

The loop decrements `current_year` once per iteration and runs while
`current_year > target_year`, i.e. exactly `current_year - target_year`
times; the fuel below is that exact count. -/

def yearsLoop (startDate : String) : Nat → Nat → String → String → List (String × String)
  | 0, _, _, ce => [(startDate, ce)]
  | k + 1, cy, cs, ce =>
    (cs, ce) :: yearsLoop startDate k (cy - 1)
      (toString (cy - 1) ++ pyDrop cs 4)
      (toString (cy - 1) ++ "-12-31T23:59:59")

def years_iter (startDate endDate : String) : List (String × String) :=
  let currentYear := (pyToNat (pyTake endDate 4)).getD 0
  let targetYear := (pyToNat (pyTake startDate 4)).getD 0
  yearsLoop startDate (currentYear - targetYear) currentYear
    (toString currentYear ++ "-01-01T00:00:00") endDate

/-! ## Partition strategies

The strategies carry a mutable `kwargs` dict whose `start_date` / `end_date`
entries they rewrite, and call the caller-supplied opaque `url_forge` to
materialize each query.  The claims only concern the date bounds, so the
kwargs record keeps exactly those two fields; `url_forge` is a function
parameter, as in the source where it is an arbitrary callable. -/

structure Kwargs where
  start_date : String
  end_date : String
  deriving DecidableEq, Repr

/-! ### `PartitionStrategyNoop` -/

structure NoopState where
  kwargs : Kwargs
  started : Bool

def noopInit (kwargs : Kwargs) : NoopState :=
  { kwargs := kwargs, started := false }

/-- `PartitionStrategyNoop.__call__`: produce the original query once, then
signal done. -/
def noopCall {υ : Type} (forge : Kwargs → υ) (s : NoopState) (_items : Option (List Json)) :
    Option υ × NoopState :=
  if s.started = false then
    (some (forge s.kwargs), { s with started := true })
  else
    (none, s)

/-- `PartitionStrategyNoop.should_go_next` (inherited by Day): always true. -/
def noopShouldGoNext (s : NoopState) (_items : List Json) : Bool × NoopState :=
  (true, s)

/-! ### `PartitionStrategyDay` -/

structure DayState where
  kwargs : Kwargs
  range : List (String × String)

/-- `PartitionStrategyDay.__init__`: holds the backward day range generator
seeded from `kwargs['start_date']` (with ambient `today` made explicit). -/
def dayInit (kwargs : Kwargs) (today : Date) : DayState :=
  { kwargs := kwargs, range := day_range kwargs.start_date today }

/-- `PartitionStrategyDay.__call__`: consume one day of the range, rewrite the
query bounds to that day, forge the query; `None` when the range is spent. -/
def dayCall {υ : Type} (forge : Kwargs → υ) (s : DayState) (_items : Option (List Json)) :
    Option υ × DayState :=
  match s.range with
  | [] => (none, s)
  | (startDate, endDate) :: rest =>
    let kw := { start_date := startDate, end_date := endDate : Kwargs }
    (some (forge kw), { kwargs := kw, range := rest })

/-- Run `n` successive `produceQuery` calls of the Day strategy, recording
each produced query together with the strategy's query bounds after the
call. -/
def dayRun {υ : Type} (forge : Kwargs → υ) : Nat → DayState → List (Option υ × Kwargs)
  | 0, _ => []
  | n + 1, s =>
    let r := dayCall forge s none
    (r.1, r.2.kwargs) :: dayRun forge n r.2

/-! ### `PartitionStrategyLimit` -/

structure LimitState where
  kwargs : Kwargs
  last_item : Option Json
  seen : Nat
  shifts : Nat
  limit : Nat
  started : Bool
  years : List (String × String)

/-- `PartitionStrategyLimit.rotate_year`: pop the next year window, rewriting
the query bounds; `false` when the year iterator is exhausted. -/
def rotate_year (s : LimitState) : Bool × LimitState :=
  match s.years with
  | [] => (false, s)
  | (startDate, endDate) :: rest =>
    (true, { s with kwargs := ⟨startDate, endDate⟩, years := rest })

/-- `PartitionStrategyLimit.__init__` (the constructor immediately performs
one `rotate_year`, discarding its boolean). -/
def limitInit (kwargs : Kwargs) (limit : Nat) : LimitState :=
  let s : LimitState :=
    { kwargs := kwargs, last_item := none, seen := 0, shifts := 0,
      limit := limit, started := false,
      years := years_iter kwargs.start_date kwargs.end_date }
  (rotate_year s).2

/-- `PartitionStrategyLimit.__call__`. -/
def limitCall {υ : Type} (forge : Kwargs → υ) (s : LimitState) (items : Option (List Json)) :
    Option υ × LimitState :=
  if s.started = false then
    let s := { s with started := true }
    (some (forge s.kwargs), s)
  else
    match items with
    | none =>
      let r := rotate_year s
      if r.1 = false then (none, r.2)
      else (some (forge r.2.kwargs), r.2)
    | some _ =>
      let s :=
        match s.last_item with
        | some it =>
          { s with kwargs := { s.kwargs with end_date := pyReplaceChar ' ' 'T' ((it.lookup "date").elim "" Json.strVal) } }
        | none => s
      (some (forge s.kwargs), s)

/-- `PartitionStrategyLimit.should_go_next`. -/
def limitShouldGoNext (s : LimitState) (items : List Json) : Bool × LimitState :=
  let s1 :=
    match items.getLast? with
    | some it => { s with last_item := some it, seen := s.seen + items.length }
    | none => s
  if s1.seen ≥ s1.limit then
    (false, { s1 with seen := 0, shifts := s1.shifts + 1 })
  else
    (true, s1)

/-! ## HTTP transport (`minet/pycurl.py`) -/

/-- Modelled from the spec: `REDIRECT_STATUSES` lives in `minet/constants.py`,
which is not among the sources; the spec describes it as "the standard HTTP
redirect codes (301/302/303/307/308 and equivalents)". -/
def REDIRECT_STATUSES : List Nat := [301, 302, 303, 307, 308]

/-- One hop of a redirect chain.  `minet.types.Redirection` is not among the
sources; per the spec a hop carries a URL, a hop-discovery tag
("location-header" for hops discovered from a `Location` header; the terminal
entry carries no such tag, embedded as `none`) and the hop's HTTP status. -/
structure Redirection where
  url : String
  kind : Option String
  status : Nat
  deriving DecidableEq, Repr

/-- Modelled from the spec: `HTTPHeaderDict` comes from `minet.types`, which
is not among the sources; the spec calls it a "case-insensitive,
multi-assignment-tolerant mapping".  The claims never inspect the mapping's
lookup behavior, only that assignments are recorded and that a new status
line resets it, so it is embedded as the list of recorded (name, value)
assignments. -/
abbrev HTTPHeaderDict := List (String × String)

/-- Header-callback state: `minet/pycurl.py` keeps this in closure variables
`current_url` / `expecting_location_with_status` plus the shared
`response_headers` and `stack` sinks. -/
structure HeaderState where
  current_url : String
  expecting : Option Nat
  headers : HTTPHeaderDict
  stack : List Redirection
  deriving Repr

/-- `int(header_line.split(" ", 1)[1][:3])`: the three characters after the
first space, parsed as a number. -/
def statusOfStatusLine (line : String) : Nat :=
  match pySplitOnce ' ' line with
  | some (_, rest) => (pyToNat (pyTake rest 3)).getD 0
  | none => 0

/-- `header_function` from `setup_curl_handle` (lines 160-198), processing a
single raw header line.  `urljoin` (Python's `urllib.parse.urljoin`) is an
external collaborator, passed as an opaque function. -/
def header_function (urljoin : String → String → String) (st : HeaderState)
    (line : String) : HeaderState :=
  let line := pyRstrip line
  if pyStartswith "HTTP/" line then
    let st := { st with headers := [] }
    let status := statusOfStatusLine line
    if status ∈ REDIRECT_STATUSES then
      { st with expecting := some status }
    else
      st
  else if !(pyContainsChar ':' line) then
    st
  else
    match pySplitOnce ':' line with
    | none => st
    | some (name, value) =>
      let name := pyStrip name
      let value := pyStrip value
      let st :=
        match st.expecting with
        | some status =>
          if pyLower name = "location" then
            let nextUrl := pyStrip (urljoin st.current_url value)
            { st with
              stack := st.stack ++ [Redirection.mk st.current_url (some "location-header") status],
              current_url := nextUrl,
              expecting := none }
          else
            st
        | none => st
      { st with headers := st.headers ++ [(name, value)] }

/-- Fold `header_function` over the raw header lines of one transfer, starting
from the requested URL with no armed redirect, empty headers and empty
stack (the initialization at lines 157-158 and 258-260). -/
def processHeaderLines (urljoin : String → String → String) (url : String)
    (lines : List String) : HeaderState :=
  lines.foldl (header_function urljoin) ⟨url, none, [], []⟩

/-! ### Timeout configuration (lines 121-146 of `setup_curl_handle`)

`AnyTimeout = Union[float, urllib3.Timeout]`.  In the split case the code
reads `timeout.total`, `timeout.read_timeout` and `timeout.connect_timeout`;
`read_timeout` is only consulted when `total is None`, where the urllib3
properties return the raw constructor arguments, embedded here as the three
option fields.  Durations are embedded as rationals. -/

inductive AnyTimeout where
  | single (t : ℚ)
  | split (total connect read : Option ℚ)

/-- The `total_timeout` computed by `setup_curl_handle` and passed to
`TIMEOUT_MS` (`none` = the option is not set). -/
def setup_total_timeout : AnyTimeout → Option ℚ
  | .single t => some t
  | .split total connect read =>
    match total with
    | some t => some t
    | none =>
      let t1 : Option ℚ := read
      match connect with
      | none => t1
      | some c =>
        match t1 with
        | some r => some (r + c)
        | none => some c

/-! ### Error classification and the request entry point -/

/-- The typed transport-error taxonomy (`minet.exceptions` classes raised by
`coerce_error` and `request_with_pycurl`). -/
inductive TransportError where
  | cancelled
  | tooManyRedirects
  | timeout
  | hostResolution
  | connectionRefused
  | ssl
  | receive
  | generic (code : Nat)
  deriving DecidableEq, Repr

/-- libcurl error codes used by `coerce_error` (stable documented values of
the external pycurl constants). -/
def E_ABORTED_BY_CALLBACK : Nat := 42
def E_TOO_MANY_REDIRECTS : Nat := 47
def E_OPERATION_TIMEDOUT : Nat := 28
def E_COULDNT_RESOLVE_HOST : Nat := 6
def E_COULDNT_CONNECT : Nat := 7
def E_PEER_FAILED_VERIFICATION : Nat := 60
def E_SSL_CONNECT_ERROR : Nat := 35
def E_RECV_ERROR : Nat := 56

/-- `coerce_error` (lines 47-73). -/
def coerce_error (code : Nat) : TransportError :=
  if code = E_ABORTED_BY_CALLBACK then .cancelled
  else if code = E_TOO_MANY_REDIRECTS then .tooManyRedirects
  else if code = E_OPERATION_TIMEDOUT then .timeout
  else if code = E_COULDNT_RESOLVE_HOST then .hostResolution
  else if code = E_COULDNT_CONNECT then .connectionRefused
  else if code = E_PEER_FAILED_VERIFICATION ∨ code = E_SSL_CONNECT_ERROR then .ssl
  else if code = E_RECV_ERROR then .receive
  else .generic code

/-- `PycurlResult` (lines 29-40). -/
structure PycurlResult where
  url : String
  body : String
  headers : HTTPHeaderDict
  status : Nat
  stack : List Redirection
  deriving Repr

/-- What one `curl.perform()` transfer produces: the raw header lines fed to
the header callback during the transfer, and the final status, effective URL
and body read back from the handle afterwards. -/
structure PerformInfo where
  headerLines : List String
  status : Nat
  effective_url : String
  body : String

/-- The network's behavior for one call: either the transfer completes with
`PerformInfo`, or `curl.perform()` raises `pycurl.error(code)`. -/
inductive PerformOutcome where
  | ok (info : PerformInfo)
  | err (code : Nat)

/-- Outcome of `request_with_pycurl`: the returned result or the raised
exception. -/
inductive RequestOutcome where
  | cancelled
  | invalidURL (url : String)
  | failed (e : TransportError)
  | ok (r : PycurlResult)
  deriving Repr

/-- `request_with_pycurl` (lines 233-297).  The external collaborators —
`ural.is_url` and `urllib.parse.urljoin` — are opaque function parameters;
`cancelSet` is `cancel_event is not None and cancel_event.is_set()` at entry;
the network itself is the `perform` parameter, so a result independent of
`perform` is one obtained without any network action. -/
def request_with_pycurl (is_url : String → Bool) (urljoin : String → String → String)
    (url : String) (cancelSet : Bool) (perform : PerformOutcome) : RequestOutcome :=
  if cancelSet then .cancelled
  else if is_url url = false then .invalidURL url
  else
    match perform with
    | .err code => .failed (coerce_error code)
    | .ok info =>
      let hs := processHeaderLines urljoin url info.headerLines
      .ok
        { url := url
          body := info.body
          headers := hs.headers
          status := info.status
          stack := hs.stack ++ [Redirection.mk info.effective_url none info.status] }

/-- The result carried by a non-raising `request_with_pycurl` outcome. -/
def resultOf : RequestOutcome → Option PycurlResult
  | .ok r => some r
  | _ => none

/-! ## Pagination stepper (`step`, lines 196-227 of `crowdtangle/utils.py`) -/

/-- The exceptions `step` may raise.  `keyLookup` stands for an uncaught
Python `KeyError`/`JSONDecodeError`/`TypeError` escaping from the lines that
index `data['message']`, `data['code']`, `data['pagination']` or call `len`
on a non-sized value. -/
inductive StepError where
  | transport (e : TransportError)
  | invalidToken
  | rateLimitExceeded
  | invalidRequest (message : String) (code : Int) (status : Nat)
  | invalidJSON
  | exhaustedPagination
  | keyLookup (key : String)
  deriving DecidableEq, Repr

/-- Response produced by `minet.utils.request` as `step` consumes it: the
HTTP status and the body.  The body is embedded post-JSON-parse: `data` is
`some` of the decoded document when `json.loads` would succeed, `none`
when it would raise. -/
structure MockResult where
  status : Nat
  data : Option Json

/-- `step` (lines 196-227), given the already-performed transport response.
The bare `except` at line 217 turns any failure of
`json.loads(result.data)['result']` — unparseable body, non-object document,
or missing `result` key — into `CrowdTangleInvalidJSONError`.  The item list
under `item_key` is required to be a JSON array (the CrowdTangle envelope's
shape; `len` of a decoded non-array is not modelled). -/
def step (result : MockResult) (item_key : String) : Except StepError (List Json × Option Json) :=
  if result.status = 401 then .error .invalidToken
  else if result.status = 429 then .error .rateLimitExceeded
  else if result.status ≥ 400 then
    match result.data with
    | none => .error .invalidJSON
    | some d =>
      match d.lookup "message", d.lookup "code" with
      | some m, some c =>
        .error (.invalidRequest m.strVal (match c with | .num n => n | _ => 0) result.status)
      | none, _ => .error (.keyLookup "message")
      | _, none => .error (.keyLookup "code")
  else
    match result.data >>= (Json.lookup · "result") with
    | none => .error .invalidJSON
    | some data =>
      match data.lookup item_key with
      | none => .error .exhaustedPagination
      | some (.arr items) =>
        if items.length = 0 then .error .exhaustedPagination
        else
          match data.lookup "pagination" with
          | none => .error (.keyLookup "pagination")
          | some pagination => .ok (items, pagination.lookup "nextPage")
      | some _ => .error (.keyLookup item_key)

/-- `default_item_id_getter` (line 230): `item['id']`.  CrowdTangle item ids
are strings; a missing or non-string id would raise in Python and is embedded
as the empty string, never exercised by the claims. -/
def default_item_id_getter (item : Json) : String :=
  (item.lookup "id").elim "" Json.strVal

/-! ## Paginated iterator (`create_iterator`, lines 237-338)

The partition strategy is a duck-typed object exposing `__call__` and
`should_go_next`; it is embedded as a record of state-passing functions over
a strategy-specific state type `σ`.  URLs are whatever the opaque
`url_forge` returns — the loop only compares them for equality and feeds
them back to the stepper — so the URL type `υ` is a parameter. -/

structure Strategy (σ υ : Type) where
  call : σ → Option (List Json) → Option υ × σ
  shouldGoNext : σ → List Json → Bool × σ

/-- The Noop strategy packaged for the iterator. -/
def noopStrategy {υ : Type} (forge : Kwargs → υ) : Strategy NoopState υ :=
  { call := noopCall forge, shouldGoNext := noopShouldGoNext }

/-- The Day strategy packaged for the iterator. -/
def dayStrategy {υ : Type} (forge : Kwargs → υ) : Strategy DayState υ :=
  { call := fun s items => dayCall forge s items,
    shouldGoNext := fun s _ => (true, s) }

/-- The Limit strategy packaged for the iterator. -/
def limitStrategy {υ : Type} (forge : Kwargs → υ) : Strategy LimitState υ :=
  { call := limitCall forge, shouldGoNext := limitShouldGoNext }

/-- The `for item in items` accumulation loop of `create_iterator`
(lines 290-312), with `format="raw"` so items pass through the caller
supplied formatter unchanged: returns the collected batch `acc`, the updated
global count `N`, and the `enough_to_stop` flag.  An item whose id is in
`last_items` is skipped; otherwise it is appended and, when the configured
global limit is reached, the loop breaks at once with the batch so far. -/
def processItems (idg : Json → String) (limit : Option Nat) :
    List Json → List String → Nat → List Json × Nat × Bool
  | [], _, n => ([], n, false)
  | item :: rest, last_items, n =>
    if last_items.contains (idg item) then
      processItems idg limit rest last_items n
    else
      let n' := n + 1
      if (match limit with | some l => decide (l ≤ n') | none => false) then
        ([item], n', true)
      else
        let r := processItems idg limit rest last_items n'
        (item :: r.1, r.2.1, r.2.2)

/-- The pagination decision at the bottom of the loop (lines 329-336): a
missing `nextPage` asks the strategy for a new query with `None`; otherwise
the strategy's `should_go_next` chooses between following `nextPage` and
asking for a new query with the current items. -/
def nextUrlDecision {σ υ : Type} (S : Strategy σ υ) (s : σ) (items : List Json) :
    Option υ → Option υ × σ
  | none => S.call s none
  | some nu =>
    match S.shouldGoNext s items with
    | (true, s1) => (some nu, s1)
    | (false, s1) => S.call s1 (some items)

/-- Loop-carried state of `create_iterator`: the cumulative yielded count
`N`, the current and previously-stepped URLs, and the previous page's item
id set (a Python `set`, embedded as its element list). -/
structure IterState (υ : Type) where
  bigN : Nat
  url : Option υ
  last_url : Option υ
  last_items : List String

/-- How a run of the iterator ends: normally (`url` became `None` or
repeated), by exhausting the fuel bound, or by an exception escaping to the
caller. -/
inductive IterOutcome where
  | finished
  | fuelOut
  | errored (e : StepError)
  deriving DecidableEq, Repr

/-- The `while` loop of `create_iterator` (lines 279-336), fuel-indexed
(the Python loop has no intrinsic termination measure).  Returns the full
yielded sequence (per-item streaming, `format="raw"`) and how the run ended.
Only `CrowdTangleExhaustedPaginationError` is caught (line 284); any other
stepper error aborts the harvest. -/
def iterLoop {σ υ : Type} [DecidableEq υ] (S : Strategy σ υ)
    (stepper : υ → Except StepError (List Json × Option υ))
    (idg : Json → String) (limit : Option Nat) :
    Nat → σ → IterState υ → List Json × IterOutcome
  | 0, _, _ => ([], .fuelOut)
  | fuel + 1, s, st =>
    match st.url with
    | none => ([], .finished)
    | some u =>
      if st.last_url = some u then ([], .finished)
      else
        match stepper u with
        | .error .exhaustedPagination =>
          let r := S.call s none
          iterLoop S stepper idg limit fuel r.2 { st with url := r.1 }
        | .error e => ([], .errored e)
        | .ok (items, next_url) =>
          match processItems idg limit items st.last_items st.bigN with
          | (acc, _, true) => (acc, .finished)
          | (acc, n', false) =>
            let r := nextUrlDecision S s items next_url
            let rest := iterLoop S stepper idg limit fuel r.2
              { bigN := n', url := r.1, last_url := some u, last_items := items.map idg }
            (acc ++ rest.1, rest.2)

/-! ## Harness definitions used by the claims -/

/-- A stepper serving a fixed sequence of successful pages: page `i` lives at
URL `i` and links to URL `i + 1` while more pages remain.  (URLs are opaque
values to the loop; numbering them keeps distinctness evident.) -/
def natChainStepper (pages : List (List Json)) (i : Nat) :
    Except StepError (List Json × Option Nat) :=
  match pages.get? i with
  | none => .error .exhaustedPagination
  | some p => .ok (p, if i + 1 < pages.length then some (i + 1) else none)

/-- A `url_forge` for the chained harness: the Noop strategy's single initial
query is page 0's URL. -/
def zeroForge : Kwargs → Nat := fun _ => 0

/-- `create_iterator` run with no partitioning, no global limit, raw output
and the default id getter against the chained pages: the initialization at
lines 266-276 (`N = 0`, `url = partition_strategy(None)`, `last_url = None`,
`last_items = set()`) followed by the loop. -/
def noopHarvest (pages : List (List Json)) (fuel : Nat) : List Json × IterOutcome :=
  let r := (noopStrategy zeroForge).call (noopInit ⟨"", ""⟩) none
  iterLoop (noopStrategy zeroForge) (natChainStepper pages) default_item_id_getter none
    fuel r.2 ⟨0, r.1, none, []⟩

/-- The cross-boundary dedup cascade as a pure function: each page is
filtered against the previous page's full id set, which is then replaced by
the current page's full id set. -/
def dedupChain (idg : Json → String) : List String → List (List Json) → List Json
  | _, [] => []
  | prev, p :: ps =>
    p.filter (fun it => !(prev.contains (idg it))) ++ dedupChain idg (p.map idg) ps

/-- Number of items in `l` carrying id `x` under the default id getter. -/
def countId (x : String) (l : List Json) : Nat :=
  l.countP (fun it => default_item_id_getter it == x)

/-! ### Concrete inputs for the counterexamples and witnesses -/

/-- A header stream with one redirect hop, so the effective URL differs from
the requested one. -/
def c1lines : List String :=
  ["HTTP/1.1 301 Moved Permanently", "Location: http://b.example/"]

def c1call : RequestOutcome :=
  request_with_pycurl (fun _ => true) (fun _ v => v) "http://a.example/" false
    (.ok ⟨c1lines, 200, "http://b.example/", ""⟩)

/-- Day strategy seeded exactly as in the claim: start date `2024-01-05`,
"today" `2024-01-08`. -/
def c2forge : Kwargs → String := fun kw => kw.start_date ++ "|" ++ kw.end_date

def c2start : DayState :=
  dayInit ⟨"2024-01-05", "2024-01-08T23:59:59"⟩ ⟨2024, 1, 8⟩

/-- Raw header stream with three status lines (301, 302, 200), each followed
by a `Location` header, as in the claim. -/
def c3lines : List String :=
  ["HTTP/1.1 301 Moved Permanently", "Location: http://b.example/",
   "HTTP/1.1 302 Found", "Location: http://c.example/",
   "HTTP/1.1 200 OK", "Location: http://d.example/"]

def c3call : RequestOutcome :=
  request_with_pycurl (fun _ => true) (fun _ v => v) "http://a.example/" false
    (.ok ⟨c3lines, 200, "http://c.example/", ""⟩)

def c3stack : List Redirection :=
  ((resultOf c3call).map PycurlResult.stack).getD []

/-- A decoded page satisfying every success precondition of the claim —
status 200, top-level `result`, non-empty `posts` array — but with no
`pagination` sub-object. -/
def c4page : MockResult :=
  ⟨200, some (.obj [("result", .obj [("posts", .arr [.obj [("id", .str "1")]])])])⟩

/-! ## Theorems -/

/-- C6: for every Transport request configured with a split timeout, the
effective total timeout passed to the transfer is the read timeout alone
when no connect timeout is given, the connect timeout alone when no read
timeout is given, and their sum when both are given; a single total timeout
(scalar, or a `Timeout` whose `total` is set) is used as-is. -/
theorem timeout_split_sums (r c t : ℚ) (oc or : Option ℚ) :
    setup_total_timeout (.split none none (some r)) = some r ∧
    setup_total_timeout (.split none (some c) none) = some c ∧
    setup_total_timeout (.split none (some c) (some r)) = some (r + c) ∧
    setup_total_timeout (.single t) = some t ∧
    setup_total_timeout (.split (some t) oc or) = some t :=
  ⟨rfl, rfl, rfl, rfl, rfl⟩

/-- C9: a cancellation token already signaled before the call starts makes
`request_with_pycurl` fail with `CancelledRequestError` whatever the URL,
the URL validator, or the network's behavior (`perform`) would have been —
the outcome does not depend on `perform`, i.e. no network action is taken. -/
theorem preemptive_cancellation (is_url : String → Bool)
    (urljoin : String → String → String) (url : String) (perform : PerformOutcome) :
    request_with_pycurl is_url urljoin url true perform = .cancelled :=
  rfl

/-- C10: the preemptive cancellation check precedes URL validation — for a
syntactically invalid URL, a signaled token still yields `Cancelled`, while
without the token the very same call fails with `InvalidURLError`. -/
theorem cancel_precedes_url_validation (is_url : String → Bool)
    (urljoin : String → String → String) (url : String) (perform : PerformOutcome)
    (h : is_url url = false) :
    request_with_pycurl is_url urljoin url true perform = .cancelled ∧
    request_with_pycurl is_url urljoin url false perform = .invalidURL url := by
  refine ⟨rfl, ?_⟩
  simp [request_with_pycurl, h]

theorem cancel_precedes_url_validation_witness :
    ((fun _ => false : String → Bool) "not a url" = false) ∧
    (request_with_pycurl (fun _ => false) (fun _ v => v) "not a url" true (.err 0)
        = .cancelled ∧
      request_with_pycurl (fun _ => false) (fun _ v => v) "not a url" false (.err 0)
        = .invalidURL "not a url") :=
  ⟨rfl, cancel_precedes_url_validation (fun _ => false) (fun _ v => v) "not a url" (.err 0) rfl⟩

/-- C2 counterexample: with start date `2024-01-05` and "today" `2024-01-08`,
the Day strategy does *not* produce 3 queries for the days `2024-01-07`,
`2024-01-06`, `2024-01-05` followed by done: the backward walk starts at
"today", not the day before, so the fourth call still produces a query. -/
theorem day_three_queries_refuted :
    ¬ ((dayRun c2forge 4 c2start).map Prod.fst =
      [some "2024-01-07|2024-01-08", some "2024-01-06|2024-01-07",
       some "2024-01-05|2024-01-06", none]) := by
  decide

/-- C2 amended: with start date `2024-01-05` and "today" `2024-01-08`, the
Day strategy produces exactly **4** queries — for the single days
`2024-01-08`, `2024-01-07`, `2024-01-06`, `2024-01-05` in that order, each
with bounds `(day, day + 1)` — and the fifth call signals done.  The forged
query is whatever the opaque `url_forge` makes of those bounds. -/
theorem day_partition_queries {υ : Type} (forge : Kwargs → υ) :
    dayRun forge 5 (dayInit ⟨"2024-01-05", "2024-01-08T23:59:59"⟩ ⟨2024, 1, 8⟩) =
      [(some (forge ⟨"2024-01-08", "2024-01-09"⟩), ⟨"2024-01-08", "2024-01-09"⟩),
       (some (forge ⟨"2024-01-07", "2024-01-08"⟩), ⟨"2024-01-07", "2024-01-08"⟩),
       (some (forge ⟨"2024-01-06", "2024-01-07"⟩), ⟨"2024-01-06", "2024-01-07"⟩),
       (some (forge ⟨"2024-01-05", "2024-01-06"⟩), ⟨"2024-01-05", "2024-01-06"⟩),
       (none, ⟨"2024-01-05", "2024-01-06"⟩)] := by
  rfl

/-- C3 counterexample: for the header stream with status lines 301, 302, 200
each followed by `Location`, the reconstructed chain does *not* hold three
non-terminal "location-header" entries plus one terminal: the 200 status
line does not arm the location expectation, so only two non-terminal entries
are produced. -/
theorem three_location_entries_refuted :
    ¬ (c3stack.countP (fun h => h.kind == some "location-header") = 3 ∧
       c3stack.length = 4) := by
  decide

/-- C3 amended: for a header stream with status lines 301, 302, 200 each
followed by a `Location` header, the chain contains exactly **two**
non-terminal "location-header" entries — for the 301 and 302 hops — plus one
terminal entry, in traversal order; the `Location` following the
non-redirect 200 only lands in the header mapping. -/
theorem redirect_chain_entries (urljoin : String → String → String)
    (u0 eff body : String) :
    resultOf (request_with_pycurl (fun _ => true) urljoin u0 false
        (.ok ⟨c3lines, 200, eff, body⟩)) =
      some { url := u0, body := body,
             headers := [("Location", "http://d.example/")], status := 200,
             stack := [⟨u0, some "location-header", 301⟩,
                       ⟨pyStrip (urljoin u0 "http://b.example/"), some "location-header", 302⟩,
                       ⟨eff, none, 200⟩] } := by
  rfl

/-- C4 counterexample: a page meeting every stated success precondition —
status below 400, a decoded top-level `result` object with a non-empty
`posts` array — but without a `pagination` sub-object does **not** make the
step succeed with no next page: `data['pagination']` raises an uncaught
`KeyError` instead. -/
theorem step_missing_pagination_raises :
    step c4page "posts" = .error (.keyLookup "pagination") ∧
    (step c4page "posts").isOk = false := by
  exact ⟨rfl, rfl⟩

/-- C4 amended: for every successful step (status < 400, body decodes as
JSON with a top-level `result` object containing a non-empty `item_key`
array) **whose result object also carries a `pagination` sub-object**, the
returned next-page link is the value of `nextPage` in that sub-object, and
when `nextPage` is absent the step still succeeds and returns no next page
(`none`); when the `pagination` sub-object itself is absent the step instead
fails with a key-lookup error. -/
theorem step_next_page_extraction (result : MockResult) (item_key : String)
    (d res pag : Json) (items : List Json)
    (hst : result.status < 400)
    (hd : result.data = some d)
    (hres : d.lookup "result" = some res)
    (hitems : res.lookup item_key = some (.arr items))
    (hne : items ≠ [])
    (hpag : res.lookup "pagination" = some pag) :
    step result item_key = .ok (items, pag.lookup "nextPage") := by
  have h1 : ¬ result.status = 401 := by omega
  have h2 : ¬ result.status = 429 := by omega
  have h3 : ¬ result.status ≥ 400 := by omega
  have hlen : ¬ items.length = 0 := by
    simpa [List.length_eq_zero] using hne
  simp [step, h1, h2, h3, hd, hres, hitems, hpag, hlen]

/-- C4 witness: a concrete page whose `pagination` object lacks `nextPage`;
the step succeeds and reports no next page. -/
theorem step_next_page_extraction_witness :
    ((⟨200, some (.obj [("result", .obj
        [("posts", .arr [.obj [("id", .str "1")]]),
         ("pagination", .obj [])])])⟩ : MockResult).status < 400) ∧
    step ⟨200, some (.obj [("result", .obj
        [("posts", .arr [.obj [("id", .str "1")]]),
         ("pagination", .obj [])])])⟩ "posts"
      = .ok ([.obj [("id", .str "1")]], none) :=
  ⟨by decide,
   step_next_page_extraction _ "posts" _ _ (.obj []) _
     (by decide) rfl rfl rfl (List.cons_ne_nil _ _) rfl⟩

/-- C5: for the Limit partition strategy with `limit = 100`, whenever the
running count of items observed since the last rotation reaches 100,
`should_go_next` returns false, the running count resets to zero and the
rotation counter (`shifts`) increments by one; the next query then produced
from the page's items has its end date equal to the timestamp of the last
item seen, with spaces converted to the API's `T` delimiter, and is the
forge of exactly those rewritten bounds. -/
theorem limit_rotation_and_requery {υ : Type} (forge : Kwargs → υ)
    (s : LimitState) (items : List Json) (last : Json) (d : String)
    (hstart : s.started = true)
    (hlimit : s.limit = 100)
    (hlast : items.getLast? = some last)
    (hdate : last.lookup "date" = some (.str d))
    (hreach : 100 ≤ s.seen + items.length) :
    (limitShouldGoNext s items).1 = false ∧
    (limitShouldGoNext s items).2.seen = 0 ∧
    (limitShouldGoNext s items).2.shifts = s.shifts + 1 ∧
    (limitCall forge (limitShouldGoNext s items).2 (some items)).2.kwargs.end_date
      = pyReplaceChar ' ' 'T' d ∧
    (limitCall forge (limitShouldGoNext s items).2 (some items)).1
      = some (forge (limitCall forge (limitShouldGoNext s items).2 (some items)).2.kwargs) := by
  have hcond :
      ({ s with last_item := some last, seen := s.seen + items.length } : LimitState).seen ≥
      ({ s with last_item := some last, seen := s.seen + items.length } : LimitState).limit := by
    simp only [hlimit]
    exact hreach
  refine ⟨?_, ?_, ?_, ?_, ?_⟩ <;>
    simp [limitShouldGoNext, hlast, if_pos hcond, limitCall, hstart, hdate, Json.strVal]

/-- C5 witness: a concrete state with 99 items already seen and one more
arriving, carrying timestamp `2024-06-01 12:00:00`. -/
theorem limit_rotation_and_requery_witness :
    (({ kwargs := ⟨"2023-01-01T00:00:00", "2024-12-31T23:59:59"⟩, last_item := none,
        seen := 99, shifts := 0, limit := 100, started := true, years := [] } : LimitState).started
        = true) ∧
    ((limitShouldGoNext
        { kwargs := ⟨"2023-01-01T00:00:00", "2024-12-31T23:59:59"⟩, last_item := none,
          seen := 99, shifts := 0, limit := 100, started := true, years := [] }
        [.obj [("id", .str "1"), ("date", .str "2024-06-01 12:00:00")]]).1 = false ∧
      (limitShouldGoNext
        { kwargs := ⟨"2023-01-01T00:00:00", "2024-12-31T23:59:59"⟩, last_item := none,
          seen := 99, shifts := 0, limit := 100, started := true, years := [] }
        [.obj [("id", .str "1"), ("date", .str "2024-06-01 12:00:00")]]).2.seen = 0 ∧
      (limitShouldGoNext
        { kwargs := ⟨"2023-01-01T00:00:00", "2024-12-31T23:59:59"⟩, last_item := none,
          seen := 99, shifts := 0, limit := 100, started := true, years := [] }
        [.obj [("id", .str "1"), ("date", .str "2024-06-01 12:00:00")]]).2.shifts = 0 + 1 ∧
      (limitCall (fun kw => kw.end_date)
        (limitShouldGoNext
          { kwargs := ⟨"2023-01-01T00:00:00", "2024-12-31T23:59:59"⟩, last_item := none,
            seen := 99, shifts := 0, limit := 100, started := true, years := [] }
          [.obj [("id", .str "1"), ("date", .str "2024-06-01 12:00:00")]]).2
        (some [.obj [("id", .str "1"), ("date", .str "2024-06-01 12:00:00")]])).2.kwargs.end_date
        = pyReplaceChar ' ' 'T' "2024-06-01 12:00:00" ∧
      (limitCall (fun kw => kw.end_date)
        (limitShouldGoNext
          { kwargs := ⟨"2023-01-01T00:00:00", "2024-12-31T23:59:59"⟩, last_item := none,
            seen := 99, shifts := 0, limit := 100, started := true, years := [] }
          [.obj [("id", .str "1"), ("date", .str "2024-06-01 12:00:00")]]).2
        (some [.obj [("id", .str "1"), ("date", .str "2024-06-01 12:00:00")]])).1
        = some ((fun kw : Kwargs => kw.end_date)
            (limitCall (fun kw => kw.end_date)
              (limitShouldGoNext
                { kwargs := ⟨"2023-01-01T00:00:00", "2024-12-31T23:59:59"⟩, last_item := none,
                  seen := 99, shifts := 0, limit := 100, started := true, years := [] }
                [.obj [("id", .str "1"), ("date", .str "2024-06-01 12:00:00")]]).2
              (some [.obj [("id", .str "1"), ("date", .str "2024-06-01 12:00:00")]])).2.kwargs)) :=
  ⟨rfl,
   limit_rotation_and_requery (fun kw => kw.end_date) _ _
     (.obj [("id", .str "1"), ("date", .str "2024-06-01 12:00:00")]) "2024-06-01 12:00:00"
     rfl rfl rfl rfl (by decide)⟩

/-- C1 counterexample: after one redirect hop, the last entry of the
returned chain carries the transfer's effective URL (`http://b.example/`),
while the Result's URL field keeps the originally requested URL
(`http://a.example/`) — they differ, so the last entry does not match the
Result's URL field. -/
theorem result_url_not_effective :
    ((resultOf c1call).bind (fun r => r.stack.getLast?)).map Redirection.url ≠
      (resultOf c1call).map PycurlResult.url := by
  decide

/-- C1 amended: for every successful `request_with_pycurl` call, the
returned Result's redirection chain is non-empty and its last entry carries
the transfer's effective URL and the same status as `Result.status`; the
Result's `url` field keeps the originally requested URL, which coincides
with the last entry's URL only when no redirect occurred. -/
theorem stack_last_entry (is_url : String → Bool) (urljoin : String → String → String)
    (url : String) (info : PerformInfo) (r : PycurlResult)
    (h : request_with_pycurl is_url urljoin url false (.ok info) = .ok r) :
    r.stack ≠ [] ∧
    r.stack.getLast? = some ⟨info.effective_url, none, info.status⟩ ∧
    r.status = info.status ∧
    r.url = url := by
  by_cases hv : is_url url = false
  · simp [request_with_pycurl, hv] at h
  · simp [request_with_pycurl, if_neg hv] at h
    cases h
    refine ⟨by simp, ?_, rfl, rfl⟩
    simp [List.getLast?_concat]

/-- C1 witness: the concrete one-hop call of the counterexample, where the
chain ends with `(http://b.example/, 200)` and the status matches. -/
theorem stack_last_entry_witness :
    (match c1call with
     | .ok r =>
       r.stack ≠ [] ∧
       r.stack.getLast? = some ⟨"http://b.example/", none, 200⟩ ∧
       r.status = 200 ∧
       r.url = "http://a.example/"
     | _ => False) :=
  stack_last_entry (fun _ => true) (fun _ v => v) "http://a.example/"
    ⟨c1lines, 200, "http://b.example/", ""⟩ _ rfl

/-- Helper: no run of the iterator loop ever ends with the exhausted-
pagination signal escaping — the only `except` clause in the loop catches
exactly that error. -/
theorem iterLoop_no_exhausted_escape {σ υ : Type} [DecidableEq υ] (S : Strategy σ υ)
    (stepper : υ → Except StepError (List Json × Option υ))
    (idg : Json → String) (limit : Option Nat) :
    ∀ (fuel : Nat) (s : σ) (st : IterState υ),
      (iterLoop S stepper idg limit fuel s st).2 ≠ .errored .exhaustedPagination := by
  intro fuel
  induction fuel with
  | zero =>
    intro s st
    simp [iterLoop]
  | succ f ih =>
    intro s st
    rw [iterLoop]
    cases hurl : st.url with
    | none => simp
    | some u =>
      dsimp only
      by_cases hlast : st.last_url = some u
      · simp [hlast]
      · rw [if_neg hlast]
        cases hstep : stepper u with
        | error e =>
          cases e <;> simp_all
        | ok page =>
          obtain ⟨items, next_url⟩ := page
          cases hproc : processItems idg limit items st.last_items st.bigN with
          | mk acc rest =>
            obtain ⟨n', stop⟩ := rest
            cases stop <;> simp_all

/-- C8: (i) no iterator run ever ends with `ExhaustedPagination` escaping to
the caller; (ii) whenever the stepper raises it (URL live and not a repeat),
that round contributes no items and the loop continues with the strategy's
next query — the run equals the run restarted at `partition_strategy(None)`;
(iii) the stepper raises `ExhaustedPagination` precisely on a decoded page
whose `item_key` array is missing or empty. -/
theorem exhausted_pagination_never_escapes :
    (∀ (σ υ : Type) [inst : DecidableEq υ] (S : Strategy σ υ)
       (stepper : υ → Except StepError (List Json × Option υ))
       (idg : Json → String) (limit : Option Nat) (fuel : Nat) (s : σ) (st : IterState υ),
       (iterLoop S stepper idg limit fuel s st).2 ≠ .errored .exhaustedPagination) ∧
    (∀ (σ υ : Type) [inst : DecidableEq υ] (S : Strategy σ υ)
       (stepper : υ → Except StepError (List Json × Option υ))
       (idg : Json → String) (limit : Option Nat) (fuel : Nat) (s : σ)
       (st : IterState υ) (u : υ),
       st.url = some u → st.last_url ≠ some u →
       stepper u = .error .exhaustedPagination →
       iterLoop S stepper idg limit (fuel + 1) s st =
         iterLoop S stepper idg limit fuel (S.call s none).2
           { st with url := (S.call s none).1 }) ∧
    (∀ (result : MockResult) (item_key : String) (res : Json),
       result.status < 400 →
       result.data >>= (Json.lookup · "result") = some res →
       (res.lookup item_key = none ∨ res.lookup item_key = some (.arr [])) →
       step result item_key = .error .exhaustedPagination) := by
  refine ⟨fun σ υ _ S stepper idg limit fuel s st =>
    iterLoop_no_exhausted_escape S stepper idg limit fuel s st, ?_, ?_⟩
  · intro σ υ _ S stepper idg limit fuel s st u hurl hlast hstep
    rw [iterLoop, hurl]
    dsimp only
    rw [if_neg hlast, hstep]
  · intro result item_key res hst hres hkey
    have h1 : ¬ result.status = 401 := by omega
    have h2 : ¬ result.status = 429 := by omega
    have h3 : ¬ result.status ≥ 400 := by omega
    rcases hkey with hk | hk <;> simp [step, h1, h2, h3, hres, hk]

/-- C8 witness: a concrete exhausted round — the strategy is asked for the
next query and nothing is yielded — together with a concrete empty-array
page making the stepper raise, and the no-escape fact at that instance. -/
theorem exhausted_pagination_never_escapes_witness :
    (iterLoop (noopStrategy zeroForge) (fun _ => .error .exhaustedPagination)
        default_item_id_getter none 1 (noopInit ⟨"", ""⟩)
        ⟨0, some 5, none, []⟩).2 ≠ .errored .exhaustedPagination ∧
    iterLoop (noopStrategy zeroForge) (fun _ => .error .exhaustedPagination)
        default_item_id_getter none 1 (noopInit ⟨"", ""⟩) ⟨0, some 5, none, []⟩ =
      iterLoop (noopStrategy zeroForge) (fun _ => .error .exhaustedPagination)
        default_item_id_getter none 0
        ((noopStrategy zeroForge).call (noopInit ⟨"", ""⟩) none).2
        ⟨0, ((noopStrategy zeroForge).call (noopInit ⟨"", ""⟩) none).1, none, []⟩ ∧
    step ⟨200, some (.obj [("result", .obj [("posts", .arr [])])])⟩ "posts"
      = .error .exhaustedPagination :=
  ⟨exhausted_pagination_never_escapes.1 NoopState Nat (noopStrategy zeroForge) _ _ none 1 _ _,
   exhausted_pagination_never_escapes.2.1 NoopState Nat (noopStrategy zeroForge) _ _ none 0 _
     ⟨0, some 5, none, []⟩ 5 rfl (by decide) rfl,
   exhausted_pagination_never_escapes.2.2 ⟨200, some (.obj [("result", .obj [("posts", .arr [])])])⟩
     "posts" (.obj [("posts", .arr [])]) (by decide) rfl (Or.inr rfl)⟩

/-- Helper: with no global limit the accumulation loop never stops early; it
collects exactly the items whose ids are not in the previous page's id set
and advances the count by that many. -/
theorem processItems_none (idg : Json → String) :
    ∀ (items : List Json) (prev : List String) (n : Nat),
      processItems idg none items prev n =
        (items.filter (fun it => !(prev.contains (idg it))),
         n + (items.filter (fun it => !(prev.contains (idg it)))).length, false) := by
  intro items
  induction items with
  | nil =>
    intro prev n
    simp [processItems]
  | cons it rest ih =>
    intro prev n
    by_cases hmem : idg it ∈ prev
    · simp [processItems, List.filter_cons, hmem, ih]
    · simp [processItems, List.filter_cons, hmem, ih, Prod.ext_iff]
      omega

/-- Helper: the count of `x`-id items surviving the dedup filter — zero when
`x` was in the previous page's id set, unchanged otherwise. -/
theorem countId_filter (x : String) (prev : List String) :
    ∀ p : List Json,
      countId x (p.filter (fun it => !(prev.contains (default_item_id_getter it)))) =
        if x ∈ prev then 0 else countId x p := by
  intro p
  induction p with
  | nil => simp [countId]
  | cons it rest ih =>
    have hcnt : ∀ l : List Json,
        countId x (it :: l) = countId x l + (if default_item_id_getter it = x then 1 else 0) := by
      intro l
      simp [countId, List.countP_cons]
    by_cases hmem : default_item_id_getter it ∈ prev
    · rw [show List.filter (fun j => !(prev.contains (default_item_id_getter j))) (it :: rest)
            = List.filter (fun j => !(prev.contains (default_item_id_getter j))) rest from by
          simp [List.filter_cons, hmem]]
      rw [ih, hcnt]
      by_cases hx2 : x ∈ prev
      · simp [hx2]
      · have hne : ¬ default_item_id_getter it = x := fun h => hx2 (h ▸ hmem)
        simp [hx2, hne]
    · rw [show List.filter (fun j => !(prev.contains (default_item_id_getter j))) (it :: rest)
            = it :: List.filter (fun j => !(prev.contains (default_item_id_getter j))) rest from by
          simp [List.filter_cons, hmem]]
      rw [hcnt, hcnt, ih]
      by_cases hx2 : x ∈ prev
      · have hne : ¬ default_item_id_getter it = x := fun h => hmem (h ▸ hx2)
        simp [hx2, hne]
      · simp [hx2]

/-- Helper: an id with a positive count in a page is in the page's id set. -/
theorem mem_map_of_countId_pos (x : String) (p : List Json)
    (h : 0 < countId x p) : x ∈ p.map default_item_id_getter := by
  simp only [countId, List.countP_pos_iff] at h
  obtain ⟨it, hmem, hid⟩ := h
  simp only [List.mem_map]
  exact ⟨it, hmem, by simpa using hid⟩

/-- Helper: an id absent from a page is absent from the page's id set. -/
theorem not_mem_map_of_countId_zero (x : String) (p : List Json)
    (h : countId x p = 0) : x ∉ p.map default_item_id_getter := by
  simp only [countId, List.countP_eq_zero] at h
  intro hc
  obtain ⟨it, hmem, hid⟩ := List.mem_map.mp hc
  exact h it hmem (by simp [hid])

/-- Helper: the dedup cascade yields nothing with id `x` when no page holds
an `x`-id item. -/
theorem countId_dedupChain_zero (x : String) :
    ∀ (pages : List (List Json)) (prev : List String),
      (∀ p ∈ pages, countId x p = 0) →
      countId x (dedupChain default_item_id_getter prev pages) = 0 := by
  intro pages
  induction pages with
  | nil =>
    intro prev _
    simp [dedupChain, countId]
  | cons p rest ih =>
    intro prev hall
    have hp : countId x p = 0 := hall p (by simp)
    simp only [dedupChain, countId, List.countP_append]
    have h1 := countId_filter x prev p
    have h2 := ih (p.map default_item_id_getter) (fun q hq => hall q (by simp [hq]))
    simp only [countId] at h1 h2 hp
    rw [h1, h2]
    split <;> simp [hp]

/-- Helper: when id `x` occurs once in page `n`, once in page `n + 1` and
nowhere else, the dedup cascade (starting from a previous-id set avoiding
`x`) yields an item with id `x` exactly once: page `n` contributes it and
page `n + 1`'s copy is dropped against page `n`'s id set. -/
theorem countId_dedupChain_once (x : String) :
    ∀ (n : Nat) (pages : List (List Json)) (prev : List String),
      x ∉ prev →
      n + 1 < pages.length →
      countId x (pages.getD n []) = 1 →
      countId x (pages.getD (n + 1) []) = 1 →
      (∀ m, m < pages.length → m ≠ n → m ≠ n + 1 → countId x (pages.getD m []) = 0) →
      countId x (dedupChain default_item_id_getter prev pages) = 1 := by
  intro n
  induction n with
  | zero =>
    intro pages prev hprev hlen h0 h1 hrest
    match pages with
    | [] => simp at hlen
    | [p0] => simp at hlen
    | p0 :: p1 :: rest =>
      simp only [List.getD_cons_zero, List.getD_cons_succ] at h0 h1
      simp only [dedupChain, countId, List.countP_append]
      have hf0 := countId_filter x prev p0
      simp only [countId] at hf0 h0 h1
      rw [hf0, if_neg hprev, h0]
      have hx0 : x ∈ p0.map default_item_id_getter :=
        mem_map_of_countId_pos x p0 (by simp only [countId]; omega)
      have hf1 := countId_filter x (p0.map default_item_id_getter) p1
      simp only [dedupChain, countId, List.countP_append] at hf1 ⊢
      rw [hf1, if_pos hx0]
      have hz : List.countP (fun it => default_item_id_getter it == x)
          (dedupChain default_item_id_getter (p1.map default_item_id_getter) rest) = 0 := by
        have := countId_dedupChain_zero x rest (p1.map default_item_id_getter)
          (fun q hq => by
            obtain ⟨m, hmlt, hmeq⟩ := List.mem_iff_getElem.mp hq
            have := hrest (m + 2) (by simp; omega) (by omega) (by omega)
            simp only [List.getD_cons_succ] at this
            rw [List.getD_eq_getElem?_getD, List.getElem?_eq_getElem hmlt, Option.getD_some, hmeq] at this
            exact this)
        simpa [countId] using this
      rw [hz]
  | succ k ih =>
    intro pages prev hprev hlen h0 h1 hrest
    match pages with
    | [] => simp at hlen
    | p :: rest =>
      simp only [List.getD_cons_succ] at h0 h1
      have hp : countId x p = 0 := by
        have := hrest 0 (by simp) (by omega) (by omega)
        simpa using this
      simp only [dedupChain, countId, List.countP_append]
      have hf := countId_filter x prev p
      simp only [countId] at hf hp
      rw [hf, if_neg hprev, hp]
      have hnotin : x ∉ p.map default_item_id_getter :=
        not_mem_map_of_countId_zero x p (by simpa [countId] using hp)
      have := ih rest (p.map default_item_id_getter) hnotin (by simp at hlen; omega) h0 h1
        (fun m hm hn hn1 => by
          have := hrest (m + 1) (by simp; omega) (by omega) (by omega)
          simpa using this)
      simpa [countId] using this

/-- Helper: against the chained all-success stepper, with no global limit
and the Noop strategy already started, the iterator from page `k` yields
exactly the dedup cascade of the remaining pages and finishes. -/
theorem iterLoop_chain (pages : List (List Json)) :
    ∀ (fuel k n : Nat) (prev : List String) (lu : Option Nat) (s : NoopState),
      s.started = true →
      k < pages.length →
      lu ≠ some k →
      pages.length - k + 1 ≤ fuel →
      iterLoop (noopStrategy zeroForge) (natChainStepper pages) default_item_id_getter none
          fuel s ⟨n, some k, lu, prev⟩ =
        (dedupChain default_item_id_getter prev (pages.drop k), .finished) := by
  intro fuel
  induction fuel with
  | zero =>
    intro k n prev lu s hs hk hlu hfuel
    omega
  | succ f ih =>
    intro k n prev lu s hs hk hlu hfuel
    rw [iterLoop]
    dsimp only
    rw [if_neg hlu]
    have hstep : natChainStepper pages k =
        .ok (pages[k], if k + 1 < pages.length then some (k + 1) else none) := by
      simp [natChainStepper, List.get?_eq_getElem?, List.getElem?_eq_getElem hk]
    rw [hstep]
    dsimp only
    rw [processItems_none]
    dsimp only
    have hdrop : pages.drop k = pages[k] :: pages.drop (k + 1) :=
      List.drop_eq_getElem_cons hk
    by_cases hnext : k + 1 < pages.length
    · rw [if_pos hnext]
      have : nextUrlDecision (noopStrategy zeroForge) s pages[k] (some (k + 1))
          = (some (k + 1), s) := by
        simp [nextUrlDecision, noopStrategy, noopShouldGoNext]
      rw [this]
      dsimp only
      rw [ih (k + 1) _ _ (some k) s hs hnext (by simp) (by omega)]
      rw [hdrop]
      simp [dedupChain]
    · rw [if_neg hnext]
      have : nextUrlDecision (noopStrategy zeroForge) s pages[k] none = (none, s) := by
        simp [nextUrlDecision, noopStrategy, noopCall, hs]
      rw [this]
      dsimp only
      obtain ⟨f', rfl⟩ : ∃ f', f = f' + 1 := ⟨f - 1, by omega⟩
      rw [iterLoop]
      dsimp only
      have hklast : k + 1 = pages.length := by omega
      rw [hdrop]
      have : pages.drop (k + 1) = [] := by
        rw [hklast]
        exact List.drop_length _
      rw [this]
      simp [dedupChain]

/-- C7: (i) when an item identifier occurs once in page `n`, once in the
immediately following page `n + 1` and in no other fetched page of the
harvest, the iterator's yielded sequence contains an item with that
identifier exactly once; (ii) after every successful page that does not stop
the harvest at the global limit, the previous-page identifier set is
replaced by the full identifier set of the current page — built from the
page's complete item list, so it also covers items that were dropped as
duplicates (items trimmed by the limit only arise in a round that stops the
harvest, after which no set is consulted). -/
theorem cross_boundary_dedup :
    (∀ (pages : List (List Json)) (n : Nat) (x : String) (fuel : Nat),
       n + 1 < pages.length →
       countId x (pages.getD n []) = 1 →
       countId x (pages.getD (n + 1) []) = 1 →
       (∀ m, m < pages.length → m ≠ n → m ≠ n + 1 → countId x (pages.getD m []) = 0) →
       pages.length + 1 ≤ fuel →
       countId x (noopHarvest pages fuel).1 = 1) ∧
    (∀ (σ υ : Type) [inst : DecidableEq υ] (S : Strategy σ υ)
       (stepper : υ → Except StepError (List Json × Option υ))
       (idg : Json → String) (limit : Option Nat) (fuel : Nat) (s : σ)
       (n : Nat) (u : υ) (lu : Option υ) (prev : List String)
       (items : List Json) (next_url : Option υ) (acc : List Json) (n' : Nat),
       lu ≠ some u →
       stepper u = .ok (items, next_url) →
       processItems idg limit items prev n = (acc, n', false) →
       iterLoop S stepper idg limit (fuel + 1) s ⟨n, some u, lu, prev⟩ =
         (acc ++ (iterLoop S stepper idg limit fuel (nextUrlDecision S s items next_url).2
             ⟨n', (nextUrlDecision S s items next_url).1, some u, items.map idg⟩).1,
          (iterLoop S stepper idg limit fuel (nextUrlDecision S s items next_url).2
             ⟨n', (nextUrlDecision S s items next_url).1, some u, items.map idg⟩).2)) := by
  constructor
  · intro pages n x fuel hlen h0 h1 hrest hfuel
    have hinit : noopHarvest pages fuel =
        iterLoop (noopStrategy zeroForge) (natChainStepper pages) default_item_id_getter none
          fuel ⟨⟨"", ""⟩, true⟩ ⟨0, some 0, none, []⟩ := rfl
    rw [hinit,
      iterLoop_chain pages fuel 0 0 [] none ⟨⟨"", ""⟩, true⟩ rfl (by omega) (by simp) (by omega)]
    simpa using countId_dedupChain_once x n pages [] (by simp) hlen h0 h1 hrest
  · intro σ υ inst S stepper idg limit fuel s n u lu prev items next_url acc n' hlu hstep hproc
    rw [iterLoop]
    dsimp only
    rw [if_neg hlu, hstep]
    dsimp only
    rw [hproc]

/-- C7 witness: the two-page harvest `[[x-item], [x-item]]` yields the item
once, and a concrete non-stopping round replaces the id set by the full id
set of the current page. -/
theorem cross_boundary_dedup_witness :
    countId "x" ((([[Json.obj [("id", Json.str "x")]],
        [Json.obj [("id", Json.str "x")]]] : List (List Json))).getD 0 []) = 1 ∧
    countId "x" (noopHarvest [[Json.obj [("id", Json.str "x")]],
        [Json.obj [("id", Json.str "x")]]] 3).1 = 1 ∧
    iterLoop (noopStrategy zeroForge) (fun _ => .ok ([], none)) default_item_id_getter none
        1 (noopInit ⟨"", ""⟩) ⟨0, some 7, none, ["y"]⟩ =
      (([] : List Json) ++
        (iterLoop (noopStrategy zeroForge) (fun _ => .ok ([], none)) default_item_id_getter none
          0 (nextUrlDecision (noopStrategy zeroForge) (noopInit ⟨"", ""⟩) [] none).2
          ⟨0, (nextUrlDecision (noopStrategy zeroForge) (noopInit ⟨"", ""⟩) [] none).1,
            some 7, List.map default_item_id_getter []⟩).1,
       (iterLoop (noopStrategy zeroForge) (fun _ => .ok ([], none)) default_item_id_getter none
          0 (nextUrlDecision (noopStrategy zeroForge) (noopInit ⟨"", ""⟩) [] none).2
          ⟨0, (nextUrlDecision (noopStrategy zeroForge) (noopInit ⟨"", ""⟩) [] none).1,
            some 7, List.map default_item_id_getter []⟩).2) :=
  ⟨by decide,
   cross_boundary_dedup.1 [[Json.obj [("id", Json.str "x")]], [Json.obj [("id", Json.str "x")]]]
     0 "x" 3 (by decide) (by decide) (by decide) (by decide) (by decide),
   cross_boundary_dedup.2 NoopState Nat (noopStrategy zeroForge) (fun _ => .ok ([], none))
     default_item_id_getter none 0 (noopInit ⟨"", ""⟩) 0 7 none ["y"] [] none [] 0
     (by decide) rfl rfl⟩

end Minet
